import Mathlib

/-!
Verification of the route distance and emissions comparison engine of
`src/railway/backend/main.py` (the `/api/calculate` endpoint,
`calculate_emissions`).

Embedding choices:
* Python floats are modelled as exact rationals (`ℚ`); The Python built-in
  `round` (round half to even) is `pyRound`, and `round(x, 1)` is `round1`.
* `ROUTES`, `COORDINATES` and `haversine` are imported by `main.py` from
  `backend/data/routes_with_coords.py`, a module that is not part of the
  sources under verification; they are therefore parameters of the
  embedding (an association-list route table, an association-list
  coordinate table, and an arbitrary pairwise distance function `hav`).
* `raise HTTPException(code, msg)` becomes `Except.error (.httpError code msg)`;
  an unhandled Python exception (a `KeyError` on the factor table or an
  `IndexError` on an empty station list) becomes `Except.error .runtimeError`.
* The `EMISSION_FACTORS` constant of `main.py` is embedded literally.
-/

namespace CarbonRail

/-- Decidable equality for `Except`, so that concrete runs of the engine
can be checked by `decide`. -/
instance {ε α : Type} [DecidableEq ε] [DecidableEq α] :
    DecidableEq (Except ε α) := fun a b =>
  match a, b with
  | .ok x, .ok y =>
    if h : x = y then .isTrue (by rw [h]) else
      .isFalse (by intro hc; exact h (Except.ok.inj hc))
  | .error x, .error y =>
    if h : x = y then .isTrue (by rw [h]) else
      .isFalse (by intro hc; exact h (Except.error.inj hc))
  | .ok _, .error _ => .isFalse (by intro hc; exact Except.noConfusion hc)
  | .error _, .ok _ => .isFalse (by intro hc; exact Except.noConfusion hc)

/-- The Python built-in `round(x)` on a rational: round half to even,
returning an integer. -/
def pyRound (q : ℚ) : ℤ :=
  let f : ℤ := ⌊q⌋
  let r : ℚ := q - (f : ℚ)
  if r < 1/2 then f
  else if 1/2 < r then f + 1
  else if f % 2 = 0 then f else f + 1

/-- The Python `round(x, 1)`: round to one decimal place, half to even. -/
def round1 (q : ℚ) : ℚ := ((pyRound (10 * q) : ℤ) : ℚ) / 10

/-- A value of the `ROUTES` table of `main.py`: a display name and an
ordered list of station identifiers. -/
structure Route where
  name : String
  stations : List String
deriving Repr, DecidableEq

/-- The request body of `POST /api/calculate` (`class EmissionRequest`). -/
structure EmissionRequest where
  route_id : String
  weight_tons : ℚ
  container : String
deriving Repr, DecidableEq

/-- An error outcome: `httpError code msg` models
`raise HTTPException(code, msg)`; `runtimeError` models an unhandled
Python exception (dictionary `KeyError` / list `IndexError`). -/
inductive ApiError where
  | httpError (code : Nat) (msg : String)
  | runtimeError
deriving Repr, DecidableEq

/-- The JSON object returned by `calculate_emissions` on success
(`main.py` lines 112-122).  `fromStation`/`toStation` are the `"from"`
and `"to"` fields. -/
structure EmissionResult where
  route_name : String
  fromStation : String
  toStation : String
  distance_km : ℚ
  rail_kg : ℚ
  ship_kg : ℚ
  saved_kg : ℚ
  trees : ℤ
  coords : List (ℚ × ℚ)
deriving Repr, DecidableEq

/-- The `EMISSION_FACTORS` constant of `main.py` (kg CO₂ per ton·km),
as a two-level association list: mode → container class → factor. -/
def EMISSION_FACTORS : List (String × List (String × ℚ)) :=
  [("rail", [("dfe", 18/1000), ("sfe", 15/1000)]),
   ("ship_plus", [("dfe", 45/1000), ("sfe", 38/1000)])]

/-- `EMISSION_FACTORS[mode][container]` as an optional lookup; `none`
corresponds to a Python `KeyError`. -/
def factorLookup (mode container : String) : Option ℚ :=
  match EMISSION_FACTORS.lookup mode with
  | none => none
  | some t => t.lookup container

/-- The station loop of `calculate_emissions` (`main.py` lines 89-99):
walk the station list in order; a station absent from the coordinate
table raises `HTTPException(500, ...)`; otherwise append its coordinate
and, from the second station on, add the haversine distance from the
previously appended coordinate.  `coords` and `dist` are the loop
accumulators (initially `[]` and `0.0`). -/
def traceStations (hav : ℚ → ℚ → ℚ → ℚ → ℚ)
    (COORDINATES : List (String × (ℚ × ℚ))) :
    List String → List (ℚ × ℚ) → ℚ → Except ApiError (List (ℚ × ℚ) × ℚ)
  | [], coords, dist => .ok (coords, dist)
  | station :: rest, coords, dist =>
    match COORDINATES.lookup station with
    | none => .error (.httpError 500 ("Нет координат для станции: " ++ station))
    | some (lat, lon) =>
      let dist' : ℚ :=
        match coords.getLast? with
        | none => dist
        | some (lat1, lon1) => dist + hav lat1 lon1 lat lon
      traceStations hav COORDINATES rest (coords ++ [(lat, lon)]) dist'

/-- The `POST /api/calculate` handler `calculate_emissions`
(`main.py` lines 76-122), parameterized by the externally loaded
`haversine` function and the `ROUTES` / `COORDINATES` tables. -/
def calculate_emissions (hav : ℚ → ℚ → ℚ → ℚ → ℚ)
    (ROUTES : List (String × Route))
    (COORDINATES : List (String × (ℚ × ℚ)))
    (req : EmissionRequest) : Except ApiError EmissionResult :=
  match ROUTES.lookup req.route_id with
  | none => .error (.httpError 400 "Неверный ID маршрута")
  | some route =>
    if ¬(req.container = "dfe" ∨ req.container = "sfe") then
      .error (.httpError 400 "container должен быть \x27dfe\x27 или \x27sfe\x27")
    else if req.weight_tons ≤ 0 then
      .error (.httpError 400 "Масса должна быть больше 0")
    else
      match traceStations hav COORDINATES route.stations [] 0 with
      | .error e => .error e
      | .ok (coords, distance_km) =>
        match factorLookup "rail" req.container,
              factorLookup "ship_plus" req.container with
        | some rail_factor, some ship_factor =>
          let rail_emission := req.weight_tons * distance_km * rail_factor
          let ship_emission := req.weight_tons * distance_km * ship_factor
          let saved := ship_emission - rail_emission
          let trees : ℤ := max 0 (pyRound (saved / 22))
          match route.stations.head?, route.stations.getLast? with
          | some s0, some sl =>
            .ok { route_name := route.name
                  fromStation := s0
                  toStation := sl
                  distance_km := round1 distance_km
                  rail_kg := round1 rail_emission
                  ship_kg := round1 ship_emission
                  saved_kg := round1 saved
                  trees := trees
                  coords := coords }
          | _, _ => .error .runtimeError
        | _, _ => .error .runtimeError

/-- Specification-side path length: the sum of the pairwise distances
between consecutive points, taken strictly in input order (0 when the
list has fewer than two points). -/
def pathDistance (hav : ℚ → ℚ → ℚ → ℚ → ℚ) : List (ℚ × ℚ) → ℚ
  | p :: q :: rest => hav p.1 p.2 q.1 q.2 + pathDistance hav (q :: rest)
  | _ => 0

/-! Concrete sample data for exercising the engine -/

/-- A sample pairwise distance function (constant 1 km per segment),
standing in for the externally loaded haversine implementation. -/
def havOne : ℚ → ℚ → ℚ → ℚ → ℚ := fun _ _ _ _ => 1

/-- A sample route table. -/
def sampleRoutes : List (String × Route) :=
  [("1", ⟨"Карбоновая магистраль", ["A", "B"]⟩),
   ("2", ⟨"Одна станция", ["S"]⟩),
   ("3", ⟨"Потерянная станция", ["A", "X"]⟩)]

/-- A sample coordinate table; station `X` deliberately has no entry. -/
def sampleCoords : List (String × (ℚ × ℚ)) :=
  [("A", (0, 0)), ("B", (0, 1)), ("S", (5, 6))]

/-- The response the engine produces on the sample tables for route `1`,
weight 10, container `dfe` (fields kept in unevaluated arithmetic form). -/
def sampleResult : EmissionResult :=
  { route_name := "Карбоновая магистраль"
    fromStation := "A"
    toStation := "B"
    distance_km := round1 (0 + 1)
    rail_kg := round1 (10 * (0 + 1) * (18/1000))
    ship_kg := round1 (10 * (0 + 1) * (45/1000))
    saved_kg := round1 (10 * (0 + 1) * (45/1000) - 10 * (0 + 1) * (18/1000))
    trees := max 0 (pyRound
      ((10 * (0 + 1) * (45/1000) - 10 * (0 + 1) * (18/1000)) / 22))
    coords := [(0, 0), (0, 1)] }

/-- The response the engine produces on the sample tables for the
single-station route `2`, weight 2, container `dfe`. -/
def sampleSingleResult : EmissionResult :=
  { route_name := "Одна станция"
    fromStation := "S"
    toStation := "S"
    distance_km := round1  0
    rail_kg := round1 (2 * 0 * (18/1000))
    ship_kg := round1 (2 * 0 * (45/1000))
    saved_kg := round1 (2 * 0 * (45/1000) - 2 * 0 * (18/1000))
    trees := max 0 (pyRound
      ((2 * 0 * (45/1000) - 2 * 0 * (18/1000)) / 22))
    coords := [(5, 6)] }

/-- The response the engine produces on the sample tables for the
single-station route `2`, weight 7, container `sfe`. -/
def sampleSingleOkResult : EmissionResult :=
  { route_name := "Одна станция"
    fromStation := "S"
    toStation := "S"
    distance_km := round1 0
    rail_kg := round1 (7 * 0 * (15/1000))
    ship_kg := round1 (7 * 0 * (38/1000))
    saved_kg := round1 (7 * 0 * (38/1000) - 7 * 0 * (15/1000))
    trees := max 0 (pyRound
      ((7 * 0 * (38/1000) - 7 * 0 * (15/1000)) / 22))
    coords := [(5, 6)] }

/-! Helper lemmas -/

theorem pathDistance_short (hav : ℚ → ℚ → ℚ → ℚ → ℚ) (l : List (ℚ × ℚ))
    (h : l.length ≤ 1) : pathDistance hav l = 0 := by
  match l with
  | [] => rfl
  | [_] => rfl
  | _ :: _ :: _ => simp at h

theorem pathDistance_optLast (hav : ℚ → ℚ → ℚ → ℚ → ℚ) (o : Option (ℚ × ℚ)) :
    pathDistance hav o.toList = 0 := by
  cases o <;> rfl

theorem pyRound_le_zero {q : ℚ} (hq : q ≤ 1/2) : pyRound q ≤ 0 := by
  have hf : ⌊q⌋ ≤ 0 := by
    have h1 : ⌊q⌋ ≤ ⌊(1/2 : ℚ)⌋ := Int.floor_le_floor hq
    have h2 : ⌊(1/2 : ℚ)⌋ = 0 := by
      rw [Int.floor_eq_iff]
      norm_num
    omega
  have hfl : (⌊q⌋ : ℚ) ≤ q := Int.floor_le q
  simp only [pyRound]
  split_ifs with h1 h2 h3
  · exact hf
  · have hlt : (⌊q⌋ : ℚ) < 0 := by linarith
    have : ⌊q⌋ < 0 := by exact_mod_cast hlt
    omega
  · exact hf
  · omega

theorem pyRound_zero : pyRound 0 = 0 := by
  simp only [pyRound]
  norm_num

theorem round1_zero : round1 0 = 0 := by
  simp only [round1, mul_zero, pyRound_zero, Int.cast_zero, zero_div]

/-- The station loop, on success, returns the input-order pairwise
distance sum relative to its accumulators. -/
theorem traceStations_ok_sum (hav : ℚ → ℚ → ℚ → ℚ → ℚ)
    (C : List (String × (ℚ × ℚ))) (stations : List String) :
    ∀ (coords cs : List (ℚ × ℚ)) (dist d : ℚ),
      traceStations hav C stations coords dist = .ok (cs, d) →
      ∃ tail, cs = coords ++ tail ∧
        d = dist + pathDistance hav (coords.getLast?.toList ++ tail) := by
  induction stations with
  | nil =>
    intro coords cs dist d h
    simp only [traceStations, Except.ok.injEq, Prod.mk.injEq] at h
    obtain ⟨rfl, rfl⟩ := h
    exact ⟨[], by simp [pathDistance_optLast]⟩
  | cons s rest ih =>
    intro coords cs dist d h
    simp only [traceStations] at h
    cases hC : C.lookup s with
    | none => simp only [hC] at h; exact Except.noConfusion h
    | some p =>
      obtain ⟨lat, lon⟩ := p
      simp only [hC] at h
      cases hL : coords.getLast? with
      | none =>
        simp only [hL] at h
        obtain ⟨tail, htail, hd⟩ := ih _ _ _ _ h
        refine ⟨(lat, lon) :: tail, by simpa using htail, ?_⟩
        rw [hd, List.getLast?_concat]
        simp [hL]
      | some p1 =>
        obtain ⟨a, b⟩ := p1
        simp only [hL] at h
        obtain ⟨tail, htail, hd⟩ := ih _ _ _ _ h
        refine ⟨(lat, lon) :: tail, by simpa using htail, ?_⟩
        rw [hd, List.getLast?_concat]
        simp only [hL, Option.toList, List.cons_append, List.nil_append,
          List.singleton_append]
        rw [pathDistance]
        ring

/-- The station loop fails only with the 500 missing-coordinate error,
naming a station of the list that has no coordinate. -/
theorem traceStations_error_mem (hav : ℚ → ℚ → ℚ → ℚ → ℚ)
    (C : List (String × (ℚ × ℚ))) (stations : List String) :
    ∀ (coords : List (ℚ × ℚ)) (dist : ℚ) (e : ApiError),
      traceStations hav C stations coords dist = .error e →
      ∃ s, s ∈ stations ∧ C.lookup s = none ∧
        e = .httpError 500 ("Нет координат для станции: " ++ s) := by
  induction stations with
  | nil => intro coords dist e h; simp [traceStations] at h
  | cons s rest ih =>
    intro coords dist e h
    simp only [traceStations] at h
    cases hC : C.lookup s with
    | none =>
      simp only [hC, Except.error.injEq] at h
      exact ⟨s, by simp, hC, h.symm⟩
    | some p =>
      obtain ⟨lat, lon⟩ := p
      simp only [hC] at h
      obtain ⟨s', hmem, hnone, he⟩ := ih _ _ _ h
      exact ⟨s', List.mem_cons_of_mem _ hmem, hnone, he⟩

/-- If some station of the list has no coordinate, the station loop
fails with the 500 missing-coordinate error. -/
theorem traceStations_missing (hav : ℚ → ℚ → ℚ → ℚ → ℚ)
    (C : List (String × (ℚ × ℚ))) (stations : List String) :
    ∀ (coords : List (ℚ × ℚ)) (dist : ℚ),
      (∃ s ∈ stations, C.lookup s = none) →
      ∃ msg, traceStations hav C stations coords dist =
        .error (.httpError 500 msg) := by
  induction stations with
  | nil => intro _ _ h; simp at h
  | cons s rest ih =>
    intro coords dist h
    obtain ⟨s', hs', hnone⟩ := h
    cases hC : C.lookup s with
    | none =>
      exact ⟨"Нет координат для станции: " ++ s, by simp [traceStations, hC]⟩
    | some p =>
      obtain ⟨lat, lon⟩ := p
      have hs'rest : s' ∈ rest := by
        rcases List.mem_cons.mp hs' with rfl | hmem
        · rw [hC] at hnone; cases hnone
        · exact hmem
      simp only [traceStations, hC]
      exact ih _ _ ⟨s', hs'rest, hnone⟩

/-- If every station of the list has a coordinate, the station loop
succeeds. -/
theorem traceStations_covered (hav : ℚ → ℚ → ℚ → ℚ → ℚ)
    (C : List (String × (ℚ × ℚ))) (stations : List String) :
    ∀ (coords : List (ℚ × ℚ)) (dist : ℚ),
      (∀ s ∈ stations, (C.lookup s).isSome) →
      ∃ cs d, traceStations hav C stations coords dist = .ok (cs, d) := by
  induction stations with
  | nil => intro coords dist _; exact ⟨coords, dist, rfl⟩
  | cons s rest ih =>
    intro coords dist hcov
    have hs := hcov s (List.mem_cons_self s rest)
    cases hC : C.lookup s with
    | none => rw [hC] at hs; simp at hs
    | some p =>
      obtain ⟨lat, lon⟩ := p
      simp only [traceStations, hC]
      exact ih _ _ (fun t ht => hcov t (List.mem_cons_of_mem _ ht))

/-- Forward characterization of a successful run of the engine: under
passing validation, a successful station trace, successful factor
lookups and a nonempty station list, the handler returns exactly the
response record built on `main.py` lines 112-122. -/
theorem calc_ok_explicit (hav : ℚ → ℚ → ℚ → ℚ → ℚ)
    (R : List (String × Route)) (C : List (String × (ℚ × ℚ)))
    (req : EmissionRequest) (route : Route) (cs : List (ℚ × ℚ)) (d rf sf : ℚ)
    (s0 sl : String)
    (hroute : R.lookup req.route_id = some route)
    (hcont : req.container = "dfe" ∨ req.container = "sfe")
    (hw : 0 < req.weight_tons)
    (htrace : traceStations hav C route.stations [] 0 = .ok (cs, d))
    (hrf : factorLookup "rail" req.container = some rf)
    (hsf : factorLookup "ship_plus" req.container = some sf)
    (hhead : route.stations.head? = some s0)
    (hlast : route.stations.getLast? = some sl) :
    calculate_emissions hav R C req = .ok
      { route_name := route.name
        fromStation := s0
        toStation := sl
        distance_km := round1 d
        rail_kg := round1 (req.weight_tons * d * rf)
        ship_kg := round1 (req.weight_tons * d * sf)
        saved_kg := round1 (req.weight_tons * d * sf - req.weight_tons * d * rf)
        trees := max 0 (pyRound
          ((req.weight_tons * d * sf - req.weight_tons * d * rf) / 22))
        coords := cs } := by
  have hw' : ¬(req.weight_tons ≤ 0) := not_le.mpr hw
  simp only [calculate_emissions, hroute, htrace, hrf, hsf, hhead, hlast,
    if_neg (not_not_intro hcont), if_neg hw']

/-- Inversion of a successful run of the engine: every `.ok` response
arises from passing validation, a successful station trace, successful
factor lookups and a nonempty station list, and is exactly the response
record of `main.py` lines 112-122. -/
theorem calc_ok_inv (hav : ℚ → ℚ → ℚ → ℚ → ℚ)
    (R : List (String × Route)) (C : List (String × (ℚ × ℚ)))
    (req : EmissionRequest) (r : EmissionResult)
    (h : calculate_emissions hav R C req = .ok r) :
    ∃ route cs d rf sf s0 sl,
      R.lookup req.route_id = some route ∧
      (req.container = "dfe" ∨ req.container = "sfe") ∧
      0 < req.weight_tons ∧
      traceStations hav C route.stations [] 0 = .ok (cs, d) ∧
      factorLookup "rail" req.container = some rf ∧
      factorLookup "ship_plus" req.container = some sf ∧
      route.stations.head? = some s0 ∧
      route.stations.getLast? = some sl ∧
      r = { route_name := route.name
            fromStation := s0
            toStation := sl
            distance_km := round1 d
            rail_kg := round1 (req.weight_tons * d * rf)
            ship_kg := round1 (req.weight_tons * d * sf)
            saved_kg := round1
              (req.weight_tons * d * sf - req.weight_tons * d * rf)
            trees := max 0 (pyRound
              ((req.weight_tons * d * sf - req.weight_tons * d * rf) / 22))
            coords := cs } := by
  cases hroute : R.lookup req.route_id with
  | none => simp [calculate_emissions, hroute] at h
  | some route =>
    simp only [calculate_emissions, hroute] at h
    by_cases hc : req.container = "dfe" ∨ req.container = "sfe"
    · rw [if_neg (not_not_intro hc)] at h
      by_cases hw : req.weight_tons ≤ 0
      · rw [if_pos hw] at h; exact Except.noConfusion h
      · rw [if_neg hw] at h
        cases htrace : traceStations hav C route.stations [] 0 with
        | error e => rw [htrace] at h; exact Except.noConfusion h
        | ok p =>
          obtain ⟨cs, d⟩ := p
          rw [htrace] at h
          cases hrf : factorLookup "rail" req.container with
          | none =>
            cases hsf : factorLookup "ship_plus" req.container <;>
              simp [hrf, hsf] at h
          | some rf =>
            cases hsf : factorLookup "ship_plus" req.container with
            | none => simp [hrf, hsf] at h
            | some sf =>
              simp only [hrf, hsf] at h
              cases hhead : route.stations.head? with
              | none =>
                cases hlast : route.stations.getLast? <;>
                  simp [hhead, hlast] at h
              | some s0 =>
                cases hlast : route.stations.getLast? with
                | none => simp [hhead, hlast] at h
                | some sl =>
                  simp only [hhead, hlast] at h
                  refine ⟨route, cs, d, rf, sf, s0, sl, rfl, hc,
                    not_le.mp hw, htrace, rfl, rfl, hhead, hlast, ?_⟩
                  exact (Except.ok.inj h).symm
    · rw [if_pos hc] at h
      exact Except.noConfusion h

/-- A validated request (known route, valid container, positive weight)
never produces a 400 error: later failures are the 500
missing-coordinate error or a runtime fault. -/
theorem calc_no_400 (hav : ℚ → ℚ → ℚ → ℚ → ℚ)
    (R : List (String × Route)) (C : List (String × (ℚ × ℚ)))
    (req : EmissionRequest) (route : Route)
    (hroute : R.lookup req.route_id = some route)
    (hc : req.container = "dfe" ∨ req.container = "sfe")
    (hw : ¬(req.weight_tons ≤ 0)) (msg : String) :
    calculate_emissions hav R C req ≠ .error (.httpError 400 msg) := by
  intro h
  simp only [calculate_emissions, hroute, if_neg (not_not_intro hc),
    if_neg hw] at h
  cases htrace : traceStations hav C route.stations [] 0 with
  | error e =>
    simp only [htrace, Except.error.injEq] at h
    obtain ⟨s, _, _, he⟩ := traceStations_error_mem hav C route.stations _ _ _ htrace
    rw [he] at h
    exact absurd (ApiError.httpError.inj h).1 (by decide)
  | ok p =>
    obtain ⟨cs, d⟩ := p
    simp only [htrace] at h
    cases hrf : factorLookup "rail" req.container with
    | none =>
      cases hsf : factorLookup "ship_plus" req.container <;> simp [hrf, hsf] at h
    | some rf =>
      cases hsf : factorLookup "ship_plus" req.container with
      | none => simp [hrf, hsf] at h
      | some sf =>
        simp only [hrf, hsf] at h
        cases hhead : route.stations.head? with
        | none => cases hlast : route.stations.getLast? <;> simp [hhead, hlast] at h
        | some s0 =>
          cases hlast : route.stations.getLast? with
          | none => simp [hhead, hlast] at h
          | some sl => simp [hhead, hlast] at h

/-! Claims -/

/-- C2: for every resolved coordinate sequence, the total distance
computed by the station loop of `calculate_emissions` is the sum of the
pairwise `hav` distances between consecutive points taken strictly in
input order, and it is 0 when the sequence has at most one point. -/
theorem total_distance_ordered_sum (hav : ℚ → ℚ → ℚ → ℚ → ℚ)
    (C : List (String × (ℚ × ℚ))) (stations : List String)
    (cs : List (ℚ × ℚ)) (d : ℚ)
    (h : traceStations hav C stations [] 0 = .ok (cs, d)) :
    d = pathDistance hav cs ∧ (cs.length ≤ 1 → d = 0) := by
  obtain ⟨tail, htail, hd⟩ := traceStations_ok_sum hav C stations [] cs 0 d h
  have hcs : cs = tail := by simpa using htail
  have h1 : d = pathDistance hav cs := by
    rw [hd, hcs]; simp
  exact ⟨h1, fun hlen => by rw [h1, pathDistance_short hav cs hlen]⟩

theorem total_distance_ordered_sum_witness :
    (0 : ℚ) + 1 = pathDistance havOne [(0, 0), (0, 1)] ∧
      (([((0:ℚ), (0:ℚ)), ((0:ℚ), (1:ℚ))]).length ≤ 1 → (0 : ℚ) + 1 = 0) :=
  total_distance_ordered_sum havOne sampleCoords ["A", "B"]
    [(0, 0), (0, 1)] (0 + 1) rfl

/-- C9: for every container value passing validation, the two
emission-factor lookups of `calculate_emissions` succeed, so the
missing-factor failure branch is unreachable. -/
theorem factor_lookup_total_on_valid_container (c : String)
    (h : c = "dfe" ∨ c = "sfe") :
    (factorLookup "rail" c).isSome = true ∧
      (factorLookup "ship_plus" c).isSome = true := by
  rcases h with rfl | rfl
  · exact ⟨rfl, rfl⟩
  · exact ⟨rfl, rfl⟩

theorem factor_lookup_total_on_valid_container_witness :
    (factorLookup "rail" "dfe").isSome = true ∧
      (factorLookup "ship_plus" "dfe").isSome = true :=
  factor_lookup_total_on_valid_container "dfe" (Or.inl rfl)

/-- C8: `calculate_emissions` is deterministic: two requests with the
same route id, weight and container yield identical results against the
same reference tables. -/
theorem calculate_emissions_deterministic (hav : ℚ → ℚ → ℚ → ℚ → ℚ)
    (R : List (String × Route)) (C : List (String × (ℚ × ℚ)))
    (req1 req2 : EmissionRequest)
    (h1 : req1.route_id = req2.route_id)
    (h2 : req1.weight_tons = req2.weight_tons)
    (h3 : req1.container = req2.container) :
    calculate_emissions hav R C req1 = calculate_emissions hav R C req2 := by
  obtain ⟨a1, b1, c1⟩ := req1
  obtain ⟨a2, b2, c2⟩ := req2
  cases h1; cases h2; cases h3
  rfl

theorem calculate_emissions_deterministic_witness :
    calculate_emissions havOne sampleRoutes sampleCoords ⟨"1", 10, "dfe"⟩ =
      calculate_emissions havOne sampleRoutes sampleCoords ⟨"1", 10, "dfe"⟩ :=
  calculate_emissions_deterministic havOne sampleRoutes sampleCoords
    ⟨"1", 10, "dfe"⟩ ⟨"1", 10, "dfe"⟩ rfl rfl rfl

/-- C4: a validated request whose route references a station without a
coordinate entry fails with a 500 data-integrity error (distinct from
the 400 validation errors), and no result is returned. -/
theorem missing_coordinate_data_error (hav : ℚ → ℚ → ℚ → ℚ → ℚ)
    (R : List (String × Route)) (C : List (String × (ℚ × ℚ)))
    (req : EmissionRequest) (route : Route)
    (hroute : R.lookup req.route_id = some route)
    (hc : req.container = "dfe" ∨ req.container = "sfe")
    (hw : 0 < req.weight_tons)
    (hmiss : ∃ s ∈ route.stations, C.lookup s = none) :
    (∃ msg, calculate_emissions hav R C req = .error (.httpError 500 msg)) ∧
      ∀ r, calculate_emissions hav R C req ≠ .ok r := by
  obtain ⟨msg, hmsg⟩ := traceStations_missing hav C route.stations [] 0 hmiss
  have hcalc : calculate_emissions hav R C req =
      .error (.httpError 500 msg) := by
    simp only [calculate_emissions, hroute, if_neg (not_not_intro hc),
      if_neg (not_le.mpr hw), hmsg]
  exact ⟨⟨msg, hcalc⟩,
    fun r hr => by rw [hcalc] at hr; exact Except.noConfusion hr⟩

theorem missing_coordinate_data_error_witness :
    (∃ msg, calculate_emissions havOne sampleRoutes sampleCoords
        ⟨"3", 10, "sfe"⟩ = .error (.httpError 500 msg)) ∧
      ∀ r, calculate_emissions havOne sampleRoutes sampleCoords
        ⟨"3", 10, "sfe"⟩ ≠ .ok r :=
  missing_coordinate_data_error havOne sampleRoutes sampleCoords
    ⟨"3", 10, "sfe"⟩ ⟨"Потерянная станция", ["A", "X"]⟩ (by decide)
    (Or.inr rfl) (by decide) ⟨"X", by decide, by decide⟩

/-- C10: a validated request for a single-station route whose station
has a coordinate entry succeeds with 0 distance, 0 emissions, 0 saved,
0 trees, and that station as both origin and destination. -/
theorem single_station_route_zero (hav : ℚ → ℚ → ℚ → ℚ → ℚ)
    (R : List (String × Route)) (C : List (String × (ℚ × ℚ)))
    (req : EmissionRequest) (nm s : String) (lat lon : ℚ)
    (hroute : R.lookup req.route_id = some ⟨nm, [s]⟩)
    (hc : req.container = "dfe" ∨ req.container = "sfe")
    (hw : 0 < req.weight_tons)
    (hcoord : C.lookup s = some (lat, lon)) :
    calculate_emissions hav R C req =
      .ok { route_name := nm, fromStation := s, toStation := s,
            distance_km := 0, rail_kg := 0, ship_kg := 0, saved_kg := 0,
            trees := 0, coords := [(lat, lon)] } := by
  have htrace : traceStations hav C [s] [] 0 = .ok ([(lat, lon)], 0) := by
    simp [traceStations, hcoord]
  obtain ⟨rf, hrf⟩ : ∃ rf, factorLookup "rail" req.container = some rf := by
    rcases hc with h | h <;> rw [h] <;> exact ⟨_, rfl⟩
  obtain ⟨sf, hsf⟩ : ∃ sf, factorLookup "ship_plus" req.container = some sf := by
    rcases hc with h | h <;> rw [h] <;> exact ⟨_, rfl⟩
  have hx := calc_ok_explicit hav R C req ⟨nm, [s]⟩ [(lat, lon)] 0 rf sf s s
    hroute hc hw htrace hrf hsf rfl rfl
  rw [hx]
  simp [round1_zero, pyRound_zero]

theorem single_station_route_zero_witness :
    calculate_emissions havOne sampleRoutes sampleCoords ⟨"2", 3, "sfe"⟩ =
      .ok { route_name := "Одна станция", fromStation := "S", toStation := "S",
            distance_km := 0, rail_kg := 0, ship_kg := 0, saved_kg := 0,
            trees := 0, coords := [(5, 6)] } :=
  single_station_route_zero havOne sampleRoutes sampleCoords ⟨"2", 3, "sfe"⟩
    "Одна станция" "S" 5 6 (by decide) (Or.inr rfl) (by decide) (by decide)

/-- C3: `calculate_emissions` fails with a 400 input-validation error if
and only if the route id is unknown, the container is neither `"dfe"`
nor `"sfe"`, or the weight is non-positive; and in each such case no
result is produced. -/
theorem validation_400_iff (hav : ℚ → ℚ → ℚ → ℚ → ℚ)
    (R : List (String × Route)) (C : List (String × (ℚ × ℚ)))
    (req : EmissionRequest) :
    ((∃ msg, calculate_emissions hav R C req = .error (.httpError 400 msg)) ↔
      (R.lookup req.route_id = none ∨
       ¬(req.container = "dfe" ∨ req.container = "sfe") ∨
       req.weight_tons ≤ 0)) ∧
    ((R.lookup req.route_id = none ∨
      ¬(req.container = "dfe" ∨ req.container = "sfe") ∨
      req.weight_tons ≤ 0) →
      ∀ r, calculate_emissions hav R C req ≠ .ok r) := by
  cases hroute : R.lookup req.route_id with
  | none =>
    have hcalc : calculate_emissions hav R C req =
        .error (.httpError 400 "Неверный ID маршрута") := by
      simp [calculate_emissions, hroute]
    refine ⟨⟨fun _ => Or.inl rfl, fun _ => ⟨_, hcalc⟩⟩, fun _ r hr => ?_⟩
    rw [hcalc] at hr; exact Except.noConfusion hr
  | some route =>
    by_cases hc : req.container = "dfe" ∨ req.container = "sfe"
    · by_cases hw : req.weight_tons ≤ 0
      · have hcalc : calculate_emissions hav R C req =
            .error (.httpError 400 "Масса должна быть больше 0") := by
          simp only [calculate_emissions, hroute, if_neg (not_not_intro hc),
            if_pos hw]
        refine ⟨⟨fun _ => Or.inr (Or.inr hw), fun _ => ⟨_, hcalc⟩⟩,
          fun _ r hr => ?_⟩
        rw [hcalc] at hr; exact Except.noConfusion hr
      · have hne := calc_no_400 hav R C req route hroute hc hw
        constructor
        · constructor
          · rintro ⟨msg, hmsg⟩
            exact absurd hmsg (hne msg)
          · rintro (h | h | h)
            · exact Option.noConfusion h
            · exact absurd hc h
            · exact absurd h hw
        · rintro (h | h | h) r hr
          · exact Option.noConfusion h
          · exact absurd hc h
          · exact absurd h hw
    · have hcalc : calculate_emissions hav R C req =
          .error (.httpError 400 "container должен быть \x27dfe\x27 или \x27sfe\x27") := by
        simp only [calculate_emissions, hroute, if_pos hc]
      refine ⟨⟨fun _ => Or.inr (Or.inl hc), fun _ => ⟨_, hcalc⟩⟩,
        fun _ r hr => ?_⟩
      rw [hcalc] at hr; exact Except.noConfusion hr

theorem validation_400_iff_witness :
    ∃ msg, calculate_emissions havOne sampleRoutes sampleCoords
      ⟨"7", 10, "dfe"⟩ = .error (.httpError 400 msg) :=
  (validation_400_iff havOne sampleRoutes sampleCoords
    ⟨"7", 10, "dfe"⟩).1.mpr (Or.inl (by decide))

/-- C1: for every validated request whose stations all have coordinates
(and whose station list is nonempty, as the route-table invariant
requires), the engine succeeds and reports
`rail_kg = round1 (weight * distance * rail_factor)`,
`ship_kg = round1 (weight * distance * ship_factor)` and
`saved_kg = round1 (ship_emission - rail_emission)` with no clamping. -/
theorem emissions_formula (hav : ℚ → ℚ → ℚ → ℚ → ℚ)
    (R : List (String × Route)) (C : List (String × (ℚ × ℚ)))
    (req : EmissionRequest) (route : Route)
    (hroute : R.lookup req.route_id = some route)
    (hc : req.container = "dfe" ∨ req.container = "sfe")
    (hw : 0 < req.weight_tons)
    (hcov : ∀ s ∈ route.stations, (C.lookup s).isSome)
    (hne : route.stations ≠ []) :
    ∃ cs d rf sf r,
      traceStations hav C route.stations [] 0 = .ok (cs, d) ∧
      factorLookup "rail" req.container = some rf ∧
      factorLookup "ship_plus" req.container = some sf ∧
      calculate_emissions hav R C req = .ok r ∧
      r.rail_kg = round1 (req.weight_tons * d * rf) ∧
      r.ship_kg = round1 (req.weight_tons * d * sf) ∧
      r.saved_kg = round1
        (req.weight_tons * d * sf - req.weight_tons * d * rf) := by
  obtain ⟨cs, d, htrace⟩ := traceStations_covered hav C route.stations [] 0 hcov
  obtain ⟨rf, hrf⟩ : ∃ rf, factorLookup "rail" req.container = some rf := by
    rcases hc with h | h <;> rw [h] <;> exact ⟨_, rfl⟩
  obtain ⟨sf, hsf⟩ : ∃ sf, factorLookup "ship_plus" req.container = some sf := by
    rcases hc with h | h <;> rw [h] <;> exact ⟨_, rfl⟩
  obtain ⟨s0, hs0⟩ : ∃ s0, route.stations.head? = some s0 := by
    cases hst : route.stations with
    | nil => exact absurd hst hne
    | cons a l => exact ⟨a, rfl⟩
  obtain ⟨sl, hsl⟩ : ∃ sl, route.stations.getLast? = some sl :=
    ⟨route.stations.getLast hne, List.getLast?_eq_getLast route.stations hne⟩
  exact ⟨cs, d, rf, sf, _, htrace, hrf, hsf,
    calc_ok_explicit hav R C req route cs d rf sf s0 sl hroute hc hw htrace
      hrf hsf hs0 hsl, rfl, rfl, rfl⟩

theorem emissions_formula_witness :
    ∃ cs d rf sf r,
      traceStations havOne sampleCoords ["A", "B"] [] 0 = .ok (cs, d) ∧
      factorLookup "rail" "dfe" = some rf ∧
      factorLookup "ship_plus" "dfe" = some sf ∧
      calculate_emissions havOne sampleRoutes sampleCoords
        ⟨"1", 10, "dfe"⟩ = .ok r ∧
      r.rail_kg = round1 (10 * d * rf) ∧
      r.ship_kg = round1 (10 * d * sf) ∧
      r.saved_kg = round1 (10 * d * sf - 10 * d * rf) :=
  emissions_formula havOne sampleRoutes sampleCoords ⟨"1", 10, "dfe"⟩
    ⟨"Карбоновая магистраль", ["A", "B"]⟩ (by decide) (Or.inl rfl)
    (by decide) (by decide) (by decide)

/-- C5: every successful result has
`trees = max 0 (pyRound (saved / 22))` computed from the unrounded
saved value, and in particular a non-negative tree count. -/
theorem trees_eq_clamped_round (hav : ℚ → ℚ → ℚ → ℚ → ℚ)
    (R : List (String × Route)) (C : List (String × (ℚ × ℚ)))
    (req : EmissionRequest) (r : EmissionResult)
    (h : calculate_emissions hav R C req = .ok r) :
    0 ≤ r.trees ∧
    ∃ route cs d rf sf,
      R.lookup req.route_id = some route ∧
      traceStations hav C route.stations [] 0 = .ok (cs, d) ∧
      factorLookup "rail" req.container = some rf ∧
      factorLookup "ship_plus" req.container = some sf ∧
      r.trees = max 0 (pyRound
        ((req.weight_tons * d * sf - req.weight_tons * d * rf) / 22)) := by
  obtain ⟨route, cs, d, rf, sf, s0, sl, hroute, hc, hw, htrace, hrf, hsf,
    hh, hl, hr⟩ := calc_ok_inv hav R C req r h
  subst hr
  exact ⟨le_max_left 0 _, route, cs, d, rf, sf, hroute, htrace, hrf, hsf, rfl⟩

theorem trees_eq_clamped_round_witness :
    0 ≤ sampleResult.trees ∧
    ∃ route cs d rf sf,
      sampleRoutes.lookup "1" = some route ∧
      traceStations havOne sampleCoords route.stations [] 0 = .ok (cs, d) ∧
      factorLookup "rail" "dfe" = some rf ∧
      factorLookup "ship_plus" "dfe" = some sf ∧
      sampleResult.trees = max 0 (pyRound
        ((10 * d * sf - 10 * d * rf) / 22)) :=
  trees_eq_clamped_round havOne sampleRoutes sampleCoords
    ⟨"1", 10, "dfe"⟩ sampleResult rfl

/-- C6: every successful result has a non-negative tree count, and a
computed saved value of at most 11 kg yields exactly 0 trees under the
round-half-to-even rule the implementation applies. -/
theorem trees_nonneg_and_zero_below_threshold (hav : ℚ → ℚ → ℚ → ℚ → ℚ)
    (R : List (String × Route)) (C : List (String × (ℚ × ℚ)))
    (req : EmissionRequest) (r : EmissionResult) (route : Route)
    (cs : List (ℚ × ℚ)) (d rf sf : ℚ)
    (hroute : R.lookup req.route_id = some route)
    (htrace : traceStations hav C route.stations [] 0 = .ok (cs, d))
    (hrf : factorLookup "rail" req.container = some rf)
    (hsf : factorLookup "ship_plus" req.container = some sf)
    (h : calculate_emissions hav R C req = .ok r) :
    0 ≤ r.trees ∧
      (req.weight_tons * d * sf - req.weight_tons * d * rf ≤ 11 →
        r.trees = 0) := by
  obtain ⟨route', cs', d', rf', sf', s0, sl, hroute', hc, hw, htrace', hrf',
    hsf', hh, hl, hr⟩ := calc_ok_inv hav R C req r h
  rw [hroute] at hroute'
  obtain rfl : route = route' := Option.some.inj hroute'
  rw [htrace] at htrace'
  obtain ⟨rfl, rfl⟩ : cs = cs' ∧ d = d' :=
    Prod.ext_iff.mp (Except.ok.inj htrace')
  rw [hrf] at hrf'
  obtain rfl : rf = rf' := Option.some.inj hrf'
  rw [hsf] at hsf'
  obtain rfl : sf = sf' := Option.some.inj hsf'
  subst hr
  refine ⟨le_max_left 0 _, fun hsmall => ?_⟩
  have hq : (req.weight_tons * d * sf - req.weight_tons * d * rf) / 22 ≤
      1 / 2 := by linarith
  exact max_eq_left (pyRound_le_zero hq)

theorem trees_nonneg_and_zero_below_threshold_witness :
    0 ≤ sampleSingleResult.trees ∧ sampleSingleResult.trees = 0 := by
  have h := trees_nonneg_and_zero_below_threshold havOne sampleRoutes
    sampleCoords ⟨"2", 2, "dfe"⟩ sampleSingleResult
    ⟨"Одна станция", ["S"]⟩ [(5, 6)] 0 (18/1000) (45/1000)
    (by decide) rfl rfl rfl rfl
  exact ⟨h.1, h.2 (by simp)⟩

/-- C7: every successful result reports the route name, the first
station as origin, the last station as destination, the distance and
the three emission amounts rounded to one decimal place, an integer
tree count, and the full traced coordinate list. -/
theorem success_result_shape (hav : ℚ → ℚ → ℚ → ℚ → ℚ)
    (R : List (String × Route)) (C : List (String × (ℚ × ℚ)))
    (req : EmissionRequest) (r : EmissionResult)
    (h : calculate_emissions hav R C req = .ok r) :
    ∃ route cs d rf sf,
      R.lookup req.route_id = some route ∧
      traceStations hav C route.stations [] 0 = .ok (cs, d) ∧
      factorLookup "rail" req.container = some rf ∧
      factorLookup "ship_plus" req.container = some sf ∧
      r.route_name = route.name ∧
      route.stations.head? = some r.fromStation ∧
      route.stations.getLast? = some r.toStation ∧
      r.distance_km = round1 d ∧
      r.rail_kg = round1 (req.weight_tons * d * rf) ∧
      r.ship_kg = round1 (req.weight_tons * d * sf) ∧
      r.saved_kg = round1
        (req.weight_tons * d * sf - req.weight_tons * d * rf) ∧
      r.trees = max 0 (pyRound
        ((req.weight_tons * d * sf - req.weight_tons * d * rf) / 22)) ∧
      r.coords = cs := by
  obtain ⟨route, cs, d, rf, sf, s0, sl, hroute, hc, hw, htrace, hrf, hsf,
    hh, hl, hr⟩ := calc_ok_inv hav R C req r h
  subst hr
  exact ⟨route, cs, d, rf, sf, hroute, htrace, hrf, hsf, rfl, hh, hl,
    rfl, rfl, rfl, rfl, rfl, rfl⟩

theorem success_result_shape_witness :
    ∃ route cs d rf sf,
      sampleRoutes.lookup "2" = some route ∧
      traceStations havOne sampleCoords route.stations [] 0 = .ok (cs, d) ∧
      factorLookup "rail" "sfe" = some rf ∧
      factorLookup "ship_plus" "sfe" = some sf ∧
      sampleSingleOkResult.route_name = route.name ∧
      route.stations.head? = some sampleSingleOkResult.fromStation ∧
      route.stations.getLast? = some sampleSingleOkResult.toStation ∧
      sampleSingleOkResult.distance_km = round1 d ∧
      sampleSingleOkResult.rail_kg = round1 (7 * d * rf) ∧
      sampleSingleOkResult.ship_kg = round1 (7 * d * sf) ∧
      sampleSingleOkResult.saved_kg = round1 (7 * d * sf - 7 * d * rf) ∧
      sampleSingleOkResult.trees = max 0 (pyRound
        ((7 * d * sf - 7 * d * rf) / 22)) ∧
      sampleSingleOkResult.coords = cs :=
  success_result_shape havOne sampleRoutes sampleCoords
    ⟨"2", 7, "sfe"⟩ sampleSingleOkResult rfl

end CarbonRail
